import Mathlib

/-!
Verification of the syringe-pump driver
(`backend/hardware/reagentdispenser/syringepump.py`).

The driver is embedded shallowly: Python numbers become exact rationals
(`ℚ`), Python division becomes checked division (`pydiv`) that raises
`ZeroDivisionError` on a zero divisor exactly where Python would, dict
lookups become association-list lookups that raise `KeyError` on a missing
key, and every outbound serial write (`grblWrite`) is recorded as a
structured `Cmd` in a trace list, in the order the code performs them.
Operations return the trace of writes performed together with either the
normal result or the Python exception raised.
-/

deriving instance DecidableEq for Except

namespace SyringePump

/-- Python exceptions that the embedded code paths can raise. -/
inductive PyErr where
  | keyError : PyErr
  | zeroDivisionError : PyErr
  deriving Repr, DecidableEq

/-- Python true division `a / b`: raises `ZeroDivisionError` when `b = 0`. -/
def pydiv (a b : ℚ) : Except PyErr ℚ :=
  if b = 0 then .error .zeroDivisionError else .ok (a / b)

/-- Python dict subscript `d[k]`: raises `KeyError` when the key is absent. -/
def pyLookup (l : List (String × α)) (k : String) : Except PyErr α :=
  match l.lookup k with
  | some v => .ok v
  | none => .error .keyError

/-- Per-axis configuration dict passed to the constructor
(`mmPerRev`, `stepsPerRev`, `mmPerml`, `maxmmPerMin`). -/
structure SyringeConfig where
  mmPerRev : ℚ
  stepsPerRev : ℚ
  mmPerml : ℚ
  maxmmPerMin : ℚ
  deriving Repr, DecidableEq

/-- One outbound serial write, in structured form.
`configStepsPerMM id v` is the text `$10{id}={v}\n`,
`configMaxFeed id v` is `$11{id}={v}\n`, and
`move axis d f` is `G91 G1 {axis}{d} F{f}\n`. -/
inductive Cmd where
  | configStepsPerMM (cncId : String) (value : ℚ)
  | configMaxFeed (cncId : String) (value : ℚ)
  | move (axis : String) (dist : ℚ) (feed : ℚ)
  deriving Repr, DecidableEq

/-- The `axisToCNCID` dict in the constructor: logical axis letter to
controller axis index. -/
def axisToCNCID : List (String × String) := [("X", "0"), ("Y", "1"), ("Z", "2")]

/-- Constructor body for a single axis: compute `stepsPerMM`, record
`axisMinmmPerMin[axis]`, then write the `$10` and `$11` directives, in the
order the Python loop body performs these steps.  Returns the writes
performed and either the derived minimum feed rate or the exception. -/
def calibrateAxis (axis : String) (cfg : SyringeConfig) :
    List Cmd × Except PyErr ℤ :=
  match pydiv cfg.stepsPerRev cfg.mmPerRev with
  | .error e => ([], .error e)
  | .ok stepsPerMM =>
    match pydiv 30 stepsPerMM with
    | .error e => ([], .error e)
    | .ok inv =>
      match pyLookup axisToCNCID axis with
      | .error e => ([], .error e)
      | .ok cncId =>
        ([Cmd.configStepsPerMM cncId stepsPerMM,
          Cmd.configMaxFeed cncId cfg.maxmmPerMin],
         .ok ⌈inv * 120⌉)

/-- The constructor loop over `syringePumpsConfig.items()` (Python dicts
iterate in insertion order).  Accumulates the writes of every axis handled
so far; stops at the first exception, keeping the writes already made. -/
def calibrate (cfgs : List (String × SyringeConfig)) :
    List Cmd × Except PyErr (List (String × ℤ)) :=
  match cfgs with
  | [] => ([], .ok [])
  | (axis, cfg) :: rest =>
    match calibrateAxis axis cfg with
    | (ws, .error e) => (ws, .error e)
    | (ws, .ok mn) =>
      match calibrate rest with
      | (ws2, .error e) => (ws ++ ws2, .error e)
      | (ws2, .ok mins) => (ws ++ ws2, .ok ((axis, mn) :: mins))

/-- The method `dispense(pumpId, volume, duration=None)`.  `duration` is
`none` for Python `None`; the guard `if duration:` is false for `None` and
for `0`.  Returns the writes performed and either the returned
`dispenseTime` or the exception raised. -/
def dispense (cfgs : List (String × SyringeConfig)) (pumpId : String)
    (volume : ℚ) (duration : Option ℚ) : List Cmd × Except PyErr ℚ :=
  match pyLookup cfgs pumpId with
  | .error e => ([], .error e)
  | .ok cfg =>
    let maxmmPerMin := cfg.maxmmPerMin
    let mmPerml := cfg.mmPerml
    let speedResult : Except PyErr ℚ :=
      match duration with
      | some d =>
        if d = 0 then .ok maxmmPerMin
        else
          match pydiv volume d with
          | .error e => .error e
          | .ok q => .ok (min (q * 60 * mmPerml) maxmmPerMin)
      | none => .ok maxmmPerMin
    match speedResult with
    | .error e => ([], .error e)
    | .ok dispenseSpeed =>
      let totalmm := volume * mmPerml
      let writes := [Cmd.move pumpId totalmm dispenseSpeed]
      match pydiv |totalmm| (dispenseSpeed / 60) with
      | .error e => (writes, .error e)
      | .ok dispenseTime => (writes, .ok dispenseTime)

/-- Result dict of `getPumpSpeedLimits`. -/
structure SpeedLimits where
  minSpeed : ℚ
  maxSpeed : ℚ
  deriving Repr, DecidableEq

/-- The method `getPumpSpeedLimits(pumpId)`: reads the stored configuration
and the cached `axisMinmmPerMin` and converts both bounds to ml/min. -/
def getPumpSpeedLimits (cfgs : List (String × SyringeConfig))
    (axisMinmmPerMin : List (String × ℤ)) (pumpId : String) :
    Except PyErr SpeedLimits :=
  match pyLookup cfgs pumpId with
  | .error e => .error e
  | .ok cfg =>
    match pydiv cfg.maxmmPerMin cfg.mmPerml with
    | .error e => .error e
    | .ok m1 =>
      match pyLookup axisMinmmPerMin pumpId with
      | .error e => .error e
      | .ok mn =>
        match pydiv (mn : ℚ) cfg.mmPerml with
        | .error e => .error e
        | .ok m2 => .ok ⟨m2 / 60, m1 / 60⟩

/-- The axis of concrete scenario 1 of the spec:
`mmPerRev=8, stepsPerRev=200, mmPerml=50, maxmmPerMin=500`. -/
def cfgX : SyringeConfig := ⟨8, 200, 50, 500⟩

/-- A configuration with a negative thread pitch, used to probe the absence
of configuration validation. -/
def cfgNeg : SyringeConfig := ⟨-8, 200, 50, 500⟩

/-- A run of the driver: construction (which calibrates every configured
axis) followed by a sequence of dispense calls; the value is the full
ordered trace of serial writes. -/
def runSession (cfgs : List (String × SyringeConfig))
    (calls : List (String × ℚ × Option ℚ)) : List Cmd :=
  (calibrate cfgs).1 ++ calls.flatMap (fun c => (dispense cfgs c.1 c.2.1 c.2.2).1)

/-- Python rendering of the motion command when the distance and feed rate
are integer valued (Python formats an int with no decimal point). -/
def renderMoveInt (axis : String) (dist feed : ℤ) : String :=
  "G91 G1 " ++ axis ++ toString dist ++ " F" ++ toString feed ++ "\n"

lemma pyLookup_single (k : String) (v : α) : pyLookup [(k, v)] k = .ok v := by
  simp [pyLookup, List.lookup]

/-- Claim C1 (amended to positive volume).  When a positive duration is
supplied, the volume is positive, and the requested rate
`(volume/duration)*60*mmPerml` is below the ceiling `maxmmPerMin`, the
emitted feed rate is exactly the requested rate and the returned elapsed
time is exactly the requested duration. -/
theorem dispense_noclamp (cfg : SyringeConfig) (pumpId : String) (v d : ℚ)
    (hv : 0 < v) (hd : 0 < d) (hm : 0 < cfg.mmPerml)
    (hrate : v / d * 60 * cfg.mmPerml < cfg.maxmmPerMin) :
    dispense [(pumpId, cfg)] pumpId v (some d) =
      ([Cmd.move pumpId (v * cfg.mmPerml) (v / d * 60 * cfg.mmPerml)], .ok d) := by
  have hd0 : d ≠ 0 := ne_of_gt hd
  have hspeed : 0 < v / d * 60 * cfg.mmPerml := by positivity
  have hs0 : v / d * 60 * cfg.mmPerml / 60 ≠ 0 := by positivity
  have hmin : min (v / d * 60 * cfg.mmPerml) cfg.maxmmPerMin
      = v / d * 60 * cfg.mmPerml := min_eq_left (le_of_lt hrate)
  have habs : |v * cfg.mmPerml| = v * cfg.mmPerml := abs_of_pos (by positivity)
  have helapsed : v * cfg.mmPerml / (v / d * 60 * cfg.mmPerml / 60) = d := by
    field_simp
    ring
  simp [dispense, pyLookup_single, pydiv, hd0, hmin, hs0, habs, helapsed]

/-- Claim C1 counterexample.  With the scenario-1 axis, `volume = -1` and
`duration = 30` the requested rate `-100` is below the ceiling `500`, yet
the call returns `-30`, not the requested duration `30`. -/
theorem C1_counterexample :
    ((-1 : ℚ) / 30 * 60 * 50 < 500) ∧
    dispense [("X", cfgX)] "X" (-1) (some 30)
      = ([Cmd.move "X" (-50) (-100)], .ok (-30)) ∧
    ((-30 : ℚ) ≠ 30) := by
  refine ⟨by norm_num, ?_, by norm_num⟩
  norm_num [dispense, pydiv, pyLookup, List.lookup, cfgX]

/-- Claim C1 witness.  Scenario 3 of the spec: `dispense("X", 2, 30)` on the
scenario-1 axis, where the requested rate `200` is below the ceiling. -/
theorem dispense_noclamp_witness :
    dispense [("X", cfgX)] "X" 2 (some 30)
      = ([Cmd.move "X" (2 * cfgX.mmPerml) (2 / 30 * 60 * cfgX.mmPerml)], .ok 30) :=
  dispense_noclamp cfgX "X" 2 30 (by norm_num) (by norm_num)
    (by norm_num [cfgX]) (by norm_num [cfgX])

/-- Claim C2.  When the requested rate exceeds the ceiling, the emitted feed
rate is clamped to `maxmmPerMin` and the returned elapsed time is strictly
greater than the requested duration. -/
theorem dispense_clamp (cfg : SyringeConfig) (pumpId : String) (v d : ℚ)
    (hd : 0 < d) (hm : 0 < cfg.mmPerml) (hmax : 0 < cfg.maxmmPerMin)
    (hrate : cfg.maxmmPerMin < v / d * 60 * cfg.mmPerml) :
    dispense [(pumpId, cfg)] pumpId v (some d) =
      ([Cmd.move pumpId (v * cfg.mmPerml) cfg.maxmmPerMin],
       .ok (v * cfg.mmPerml / (cfg.maxmmPerMin / 60))) ∧
    d < v * cfg.mmPerml / (cfg.maxmmPerMin / 60) := by
  have hd0 : d ≠ 0 := ne_of_gt hd
  have hv : 0 < v := by
    by_contra hle
    push_neg at hle
    have : v / d * 60 * cfg.mmPerml ≤ 0 := by
      have : v / d ≤ 0 := div_nonpos_of_nonpos_of_nonneg hle (le_of_lt hd)
      nlinarith
    linarith
  have hmin : min (v / d * 60 * cfg.mmPerml) cfg.maxmmPerMin
      = cfg.maxmmPerMin := min_eq_right (le_of_lt hrate)
  have hs0 : cfg.maxmmPerMin / 60 ≠ 0 := by positivity
  have habs : |v * cfg.mmPerml| = v * cfg.mmPerml := abs_of_pos (by positivity)
  constructor
  · simp [dispense, pyLookup_single, pydiv, hd0, hmin, hs0, habs]
  · rw [lt_div_iff₀ (by positivity)]
    rw [div_mul_eq_mul_div, div_mul_eq_mul_div, lt_div_iff₀ hd] at hrate
    nlinarith

/-- Claim C2 witness.  Scenario-1 axis, `dispense("X", 2, 1)`: requested rate
`6000` exceeds the ceiling `500`, the emitted feed rate is `500` and the
elapsed time `12` exceeds the requested duration `1`. -/
theorem dispense_clamp_witness :
    dispense [("X", cfgX)] "X" 2 (some 1)
      = ([Cmd.move "X" (2 * cfgX.mmPerml) cfgX.maxmmPerMin],
         .ok (2 * cfgX.mmPerml / (cfgX.maxmmPerMin / 60))) ∧
    (1 : ℚ) < 2 * cfgX.mmPerml / (cfgX.maxmmPerMin / 60) :=
  dispense_clamp cfgX "X" 2 1 (by norm_num) (by norm_num [cfgX])
    (by norm_num [cfgX]) (by norm_num [cfgX])

lemma calibrateAxis_eq (axis cncId : String) (cfg : SyringeConfig)
    (h1 : cfg.mmPerRev ≠ 0) (h2 : cfg.stepsPerRev ≠ 0)
    (h3 : axisToCNCID.lookup axis = some cncId) :
    calibrateAxis axis cfg =
      ([Cmd.configStepsPerMM cncId (cfg.stepsPerRev / cfg.mmPerRev),
        Cmd.configMaxFeed cncId cfg.maxmmPerMin],
       .ok ⌈30 / (cfg.stepsPerRev / cfg.mmPerRev) * 120⌉) := by
  have hs : cfg.stepsPerRev / cfg.mmPerRev ≠ 0 := div_ne_zero h2 h1
  simp [calibrateAxis, pydiv, pyLookup, h1, h2, hs, h3]

lemma calibrate_cons_trace (axis : String) (cfg : SyringeConfig)
    (rest : List (String × SyringeConfig)) (ws : List Cmd) (mn : ℤ)
    (h : calibrateAxis axis cfg = (ws, .ok mn)) :
    (calibrate ((axis, cfg) :: rest)).1 = ws ++ (calibrate rest).1 := by
  simp only [calibrate, h]
  rcases hrest : calibrate rest with ⟨ws2, r⟩
  cases r <;> simp

/-- Claim C3 (amended).  The constructor performs no validation of the
configuration values: whenever the divisions it performs are defined
(`mmPerRev ≠ 0` and `stepsPerRev ≠ 0`), construction of an axis completes
without error and performs both calibration writes, even for negative
parameters. -/
theorem calibrate_no_validation (cfg : SyringeConfig)
    (h1 : cfg.mmPerRev ≠ 0) (h2 : cfg.stepsPerRev ≠ 0) :
    calibrate [("X", cfg)] =
      ([Cmd.configStepsPerMM "0" (cfg.stepsPerRev / cfg.mmPerRev),
        Cmd.configMaxFeed "0" cfg.maxmmPerMin],
       .ok [("X", ⌈30 / (cfg.stepsPerRev / cfg.mmPerRev) * 120⌉)]) := by
  simp [calibrate, calibrateAxis_eq "X" "0" cfg h1 h2 (by rfl)]

/-- Claim C3 counterexample.  A configuration with negative `mmPerRev`
(non-positive, hence invalid per the claim) is accepted: construction
succeeds, performs both protocol writes, and raises no
InvalidConfiguration error. -/
theorem C3_counterexample :
    calibrate [("X", cfgNeg)] =
      ([Cmd.configStepsPerMM "0" (-25), Cmd.configMaxFeed "0" 500],
       .ok [("X", -144)]) := by
  have hc : ⌈(-144 : ℚ)⌉ = (-144 : ℤ) := by
    rw [show ((-144 : ℚ)) = ((-144 : ℤ) : ℚ) by norm_num, Int.ceil_intCast]
  norm_num [calibrate, calibrateAxis, pydiv, pyLookup, axisToCNCID, cfgNeg,
    List.lookup, hc]

/-- Claim C3 witness.  The amended theorem applied to the negative-pitch
configuration. -/
theorem calibrate_no_validation_witness :
    calibrate [("X", cfgNeg)] =
      ([Cmd.configStepsPerMM "0" (cfgNeg.stepsPerRev / cfgNeg.mmPerRev),
        Cmd.configMaxFeed "0" cfgNeg.maxmmPerMin],
       .ok [("X", ⌈30 / (cfgNeg.stepsPerRev / cfgNeg.mmPerRev) * 120⌉)]) :=
  calibrate_no_validation cfgNeg (by norm_num [cfgNeg]) (by norm_num [cfgNeg])

/-- Claim C4 (amended).  `dispense` performs no volume validation: volume
zero with no duration supplied is accepted, emits a zero-distance motion
write, and returns elapsed time `0` instead of raising InvalidVolume. -/
theorem dispense_zero_volume (cfg : SyringeConfig) (pumpId : String)
    (h : cfg.maxmmPerMin ≠ 0) :
    dispense [(pumpId, cfg)] pumpId 0 none =
      ([Cmd.move pumpId 0 cfg.maxmmPerMin], .ok 0) := by
  have h60 : cfg.maxmmPerMin / 60 ≠ 0 := by
    simp [div_eq_zero_iff, h]
  simp [dispense, pyLookup_single, pydiv, h60]

/-- Claim C4 counterexample.  `dispense("X", 0, None)` on the scenario-1 axis
raises nothing: it emits the write `G91 G1 X0 F500` and returns `0`,
contradicting the claim that zero volume raises InvalidVolume with no
transport write. -/
theorem C4_counterexample :
    dispense [("X", cfgX)] "X" 0 none = ([Cmd.move "X" 0 500], .ok 0) := by
  norm_num [dispense, pydiv, pyLookup, List.lookup, cfgX]

/-- Claim C4 witness.  The amended theorem applied to the scenario-1 axis. -/
theorem dispense_zero_volume_witness :
    dispense [("X", cfgX)] "X" 0 none =
      ([Cmd.move "X" 0 cfgX.maxmmPerMin], .ok 0) :=
  dispense_zero_volume cfgX "X" (by norm_num [cfgX])

/-- Claim C5.  Dispensing on an axis absent from the configured set raises a
lookup error (Python KeyError, the realization of UnknownAxis) before any
transport write: the trace of writes is empty. -/
theorem dispense_unknown_axis (cfgs : List (String × SyringeConfig))
    (pumpId : String) (h : cfgs.lookup pumpId = none) (v : ℚ)
    (dur : Option ℚ) :
    dispense cfgs pumpId v dur = ([], .error .keyError) := by
  simp [dispense, pyLookup, h]

/-- Claim C5 witness.  Axis `Y` was never configured, so dispensing on it
fails with a lookup error and no write. -/
theorem dispense_unknown_axis_witness :
    dispense [("X", cfgX)] "Y" 5 none = ([], .error .keyError) :=
  dispense_unknown_axis [("X", cfgX)] "Y" (by simp [List.lookup]) 5 none

/-- Claim C6.  Calibration derives `stepsPerMm = stepsPerRev / mmPerRev` and
`minMmPerMin = ceil((30/stepsPerMm)*120)`, an integer that is nonnegative
for positive parameters; on the scenario-1 axis this gives `stepsPerMm =
25`, `minMmPerMin = 144`, and `getPumpSpeedLimits` reports `maxSpeed =
500/50/60 = 1/6` ml/min. -/
theorem calibrate_derived_values (cfg : SyringeConfig)
    (h1 : 0 < cfg.mmPerRev) (h2 : 0 < cfg.stepsPerRev) :
    calibrate [("X", cfg)] =
      ([Cmd.configStepsPerMM "0" (cfg.stepsPerRev / cfg.mmPerRev),
        Cmd.configMaxFeed "0" cfg.maxmmPerMin],
       .ok [("X", ⌈30 / (cfg.stepsPerRev / cfg.mmPerRev) * 120⌉)]) ∧
    0 ≤ (⌈30 / (cfg.stepsPerRev / cfg.mmPerRev) * 120⌉ : ℤ) ∧
    calibrate [("X", cfgX)] =
      ([Cmd.configStepsPerMM "0" 25, Cmd.configMaxFeed "0" 500],
       .ok [("X", 144)]) ∧
    getPumpSpeedLimits [("X", cfgX)] [("X", 144)] "X"
      = .ok ⟨144 / 50 / 60, 1 / 6⟩ := by
  refine ⟨?_, ?_, ?_, ?_⟩
  · simp [calibrate,
      calibrateAxis_eq "X" "0" cfg (ne_of_gt h1) (ne_of_gt h2) rfl]
  · have hpos : (0 : ℚ) < 30 / (cfg.stepsPerRev / cfg.mmPerRev) * 120 := by
      have := div_pos h2 h1
      positivity
    exact Int.ceil_nonneg (le_of_lt hpos)
  · norm_num [calibrate, calibrateAxis, pydiv, pyLookup, axisToCNCID,
      List.lookup, cfgX]
  · norm_num [getPumpSpeedLimits, pydiv, pyLookup, List.lookup, cfgX]

/-- Claim C6 witness.  The derivation theorem applied to the scenario-1
axis. -/
theorem calibrate_derived_values_witness :
    calibrate [("X", cfgX)] =
      ([Cmd.configStepsPerMM "0" (cfgX.stepsPerRev / cfgX.mmPerRev),
        Cmd.configMaxFeed "0" cfgX.maxmmPerMin],
       .ok [("X", ⌈30 / (cfgX.stepsPerRev / cfgX.mmPerRev) * 120⌉)]) ∧
    0 ≤ (⌈30 / (cfgX.stepsPerRev / cfgX.mmPerRev) * 120⌉ : ℤ) ∧
    calibrate [("X", cfgX)] =
      ([Cmd.configStepsPerMM "0" 25, Cmd.configMaxFeed "0" 500],
       .ok [("X", 144)]) ∧
    getPumpSpeedLimits [("X", cfgX)] [("X", 144)] "X"
      = .ok ⟨144 / 50 / 60, 1 / 6⟩ :=
  calibrate_derived_values cfgX (by norm_num [cfgX]) (by norm_num [cfgX])

/-- Claim C7.  For every configured axis (with defined divisions and a
supported axis letter) calibration performs exactly the two writes
steps-per-mm directive then max-feed directive, with the X, Y, Z to 0, 1,
2 controller mapping, and in a full run every calibration write comes
before every dispense write. -/
theorem calibrate_writes_in_order (cfgs : List (String × SyringeConfig))
    (h : ∀ p ∈ cfgs, p.2.mmPerRev ≠ 0 ∧ p.2.stepsPerRev ≠ 0 ∧
      (axisToCNCID.lookup p.1).isSome) :
    (calibrate cfgs).1 = cfgs.flatMap (fun p =>
      [Cmd.configStepsPerMM ((axisToCNCID.lookup p.1).getD "")
         (p.2.stepsPerRev / p.2.mmPerRev),
       Cmd.configMaxFeed ((axisToCNCID.lookup p.1).getD "")
         p.2.maxmmPerMin]) ∧
    axisToCNCID.lookup "X" = some "0" ∧
    axisToCNCID.lookup "Y" = some "1" ∧
    axisToCNCID.lookup "Z" = some "2" ∧
    ∀ calls, runSession cfgs calls = (calibrate cfgs).1 ++
      calls.flatMap (fun c => (dispense cfgs c.1 c.2.1 c.2.2).1) := by
  refine ⟨?_, rfl, rfl, rfl, fun calls => rfl⟩
  induction cfgs with
  | nil => simp [calibrate]
  | cons p rest ih =>
    rcases p with ⟨axis, cfg⟩
    obtain ⟨h1, h2, h3⟩ := h (axis, cfg) (List.mem_cons_self _ _)
    obtain ⟨cncId, hc⟩ := Option.isSome_iff_exists.mp h3
    rw [calibrate_cons_trace axis cfg rest _ _
        (calibrateAxis_eq axis cncId cfg h1 h2 hc),
      ih (fun q hq => h q (List.mem_cons_of_mem _ hq))]
    simp [hc]

/-- Claim C7 witness.  A two-axis configuration (X and Y) followed by one
dispense call: the calibration trace is the four directives in order and
forms the front of the session trace. -/
theorem calibrate_writes_in_order_witness :
    (calibrate [("X", cfgX), ("Y", cfgNeg)]).1 =
      [("X", cfgX), ("Y", cfgNeg)].flatMap (fun p =>
        [Cmd.configStepsPerMM ((axisToCNCID.lookup p.1).getD "")
           (p.2.stepsPerRev / p.2.mmPerRev),
         Cmd.configMaxFeed ((axisToCNCID.lookup p.1).getD "")
           p.2.maxmmPerMin]) ∧
    axisToCNCID.lookup "X" = some "0" ∧
    axisToCNCID.lookup "Y" = some "1" ∧
    axisToCNCID.lookup "Z" = some "2" ∧
    runSession [("X", cfgX), ("Y", cfgNeg)] [("X", 2, none)] =
      (calibrate [("X", cfgX), ("Y", cfgNeg)]).1 ++
      [("X", (2 : ℚ), (none : Option ℚ))].flatMap
        (fun c => (dispense [("X", cfgX), ("Y", cfgNeg)] c.1 c.2.1 c.2.2).1) := by
  have T := calibrate_writes_in_order [("X", cfgX), ("Y", cfgNeg)]
    (by
      intro p hp
      simp only [List.mem_cons, List.not_mem_nil, or_false] at hp
      rcases hp with rfl | rfl <;>
        exact ⟨by norm_num [cfgX, cfgNeg], by norm_num [cfgX, cfgNeg], by rfl⟩)
  exact ⟨T.1, T.2.1, T.2.2.1, T.2.2.2.1, T.2.2.2.2 [("X", 2, none)]⟩

/-- Claim C8.  `getPumpSpeedLimits` is a pure round trip of the stored
configuration: `maxSpeed * mmPerml * 60 = maxmmPerMin` exactly, and
`minSpeed = minMmPerMin / mmPerml / 60`. -/
theorem getPumpSpeedLimits_roundtrip (cfg : SyringeConfig) (pumpId : String)
    (mn : ℤ) (h : cfg.mmPerml ≠ 0) :
    getPumpSpeedLimits [(pumpId, cfg)] [(pumpId, mn)] pumpId =
      .ok ⟨(mn : ℚ) / cfg.mmPerml / 60, cfg.maxmmPerMin / cfg.mmPerml / 60⟩ ∧
    cfg.maxmmPerMin / cfg.mmPerml / 60 * cfg.mmPerml * 60
      = cfg.maxmmPerMin := by
  constructor
  · simp [getPumpSpeedLimits, pyLookup_single, pydiv, h]
  · field_simp
    ring

/-- Claim C8 witness.  The round trip on the scenario-1 axis with the cached
minimum `144`. -/
theorem getPumpSpeedLimits_roundtrip_witness :
    getPumpSpeedLimits [("X", cfgX)] [("X", 144)] "X" =
      .ok ⟨((144 : ℤ) : ℚ) / cfgX.mmPerml / 60,
           cfgX.maxmmPerMin / cfgX.mmPerml / 60⟩ ∧
    cfgX.maxmmPerMin / cfgX.mmPerml / 60 * cfgX.mmPerml * 60
      = cfgX.maxmmPerMin :=
  getPumpSpeedLimits_roundtrip cfgX "X" 144 (by norm_num [cfgX])

/-- Claim C9.  Every dispense call that returns normally performed exactly
one write, a relative-motion command on the requested axis; and scenario
2: `dispense("X", 2, None)` on the scenario-1 axis emits the single write
`G91 G1 X100 F500` (exact text via the integer rendering) and returns
`12`. -/
theorem dispense_single_write (cfgs : List (String × SyringeConfig))
    (pumpId : String) (v : ℚ) (dur : Option ℚ) (t : ℚ)
    (h : (dispense cfgs pumpId v dur).2 = .ok t) :
    (∃ dist feed,
      (dispense cfgs pumpId v dur).1 = [Cmd.move pumpId dist feed]) ∧
    dispense [("X", cfgX)] "X" 2 none = ([Cmd.move "X" 100 500], .ok 12) ∧
    renderMoveInt "X" 100 500 = "G91 G1 X100 F500\n" := by
  refine ⟨?_, ?_, rfl⟩
  · unfold dispense at h ⊢
    rcases hl : pyLookup cfgs pumpId with e | cfg
    · simp [hl] at h
    · simp only [hl] at h ⊢
      rcases hs : (match dur with
        | some d =>
          if d = 0 then Except.ok cfg.maxmmPerMin
          else
            match pydiv v d with
            | .error e => .error e
            | .ok q => .ok (min (q * 60 * cfg.mmPerml) cfg.maxmmPerMin)
        | none => Except.ok cfg.maxmmPerMin) with e | speed
      · simp [hs] at h
      · simp only [hs] at h ⊢
        rcases hdv : pydiv |v * cfg.mmPerml| (speed / 60) with e | dt
        · simp [hdv] at h
        · simp [hdv]
  · norm_num [dispense, pydiv, pyLookup, List.lookup, cfgX]

/-- Claim C9 witness.  The single-write theorem at scenario 2. -/
theorem dispense_single_write_witness :
    (∃ dist feed,
      (dispense [("X", cfgX)] "X" 2 none).1 = [Cmd.move "X" dist feed]) ∧
    dispense [("X", cfgX)] "X" 2 none = ([Cmd.move "X" 100 500], .ok 12) ∧
    renderMoveInt "X" 100 500 = "G91 G1 X100 F500\n" :=
  dispense_single_write [("X", cfgX)] "X" 2 none 12
    (by norm_num [dispense, pydiv, pyLookup, List.lookup, cfgX])

/-- Claim C10.  A duration of `0` is falsy in Python, so `dispense` with
`duration = 0` behaves exactly like `dispense` with no duration: no
division by zero, the feed rate defaults to the ceiling, and the call
returns normally. -/
theorem dispense_zero_duration (cfg : SyringeConfig) (pumpId : String)
    (v : ℚ) (h : cfg.maxmmPerMin ≠ 0) :
    dispense [(pumpId, cfg)] pumpId v (some 0) =
      dispense [(pumpId, cfg)] pumpId v none ∧
    dispense [(pumpId, cfg)] pumpId v (some 0) =
      ([Cmd.move pumpId (v * cfg.mmPerml) cfg.maxmmPerMin],
       .ok (|v * cfg.mmPerml| / (cfg.maxmmPerMin / 60))) := by
  have h60 : cfg.maxmmPerMin / 60 ≠ 0 := by
    simp [div_eq_zero_iff, h]
  constructor
  · simp [dispense]
  · simp [dispense, pyLookup_single, pydiv, h60]

/-- Claim C10 witness.  Duration `0` on the scenario-1 axis: same behaviour
as an absent duration, completing normally at the ceiling feed rate. -/
theorem dispense_zero_duration_witness :
    dispense [("X", cfgX)] "X" 2 (some 0) =
      dispense [("X", cfgX)] "X" 2 none ∧
    dispense [("X", cfgX)] "X" 2 (some 0) =
      ([Cmd.move "X" (2 * cfgX.mmPerml) cfgX.maxmmPerMin],
       .ok (|2 * cfgX.mmPerml| / (cfgX.maxmmPerMin / 60))) :=
  dispense_zero_duration cfgX "X" 2 (by norm_num [cfgX])

end SyringePump
